import Mathlib

/-!
Shallow embedding of the `intel-8080` emulator core (the `emulator` crate:
`src/emulator/src/intel8080/{bit,register,memory,cpu}.rs`), together with the
second crate's bit utility (`src/intel8080/src/bit.rs`).

Conventions of the embedding:
* Rust `u8` / `u16` values are `Nat`s; a cast `as u8` becomes `% 256` and a
  cast `as u16` keeps the value (the sources only widen there).  Wrapping
  arithmetic (`wrapping_add`, `wrapping_sub`, and the compound assignments
  `+=` which wrap in release builds) becomes explicit `% 256` / `% 65536`.
* `Vec<u8>` indexing panics when the index is out of bounds, so every memory
  access returns an `Option`; the CPU operations that touch memory are
  `Option`-valued and `none` models the panic.
* The memory store is a function `Nat → Nat`; `Memory.get` reduces the stored
  value `% 256`, encoding that the Rust vector holds `u8` values.
-/

namespace Intel8080

/-! ## Bit utilities (`src/emulator/src/intel8080/bit.rs`) -/

namespace bit

/-- Rust `bit::get(byte, pos) = ((byte >> pos) & 1) != 0` (emulator crate). -/
def get (byte pos : Nat) : Bool := (byte >>> pos) &&& 1 ≠ 0

/-- Rust `bit::set(byte, pos) = byte | (1 << pos)`. -/
def set (byte pos : Nat) : Nat := byte ||| (1 <<< pos)

/-- Rust `bit::clear(byte, pos) = byte & !(1 << pos)`; the `u8` complement of
`1 << pos` is `255 ^^^ (1 <<< pos)` for `pos ≤ 7`. -/
def clear (byte pos : Nat) : Nat := byte &&& (255 ^^^ ((1 <<< pos) % 256))

end bit

/-- Rust `bit::get(byte, pos) = (byte & (1 << pos)) != 0` from the second
crate (`src/intel8080/src/bit.rs`); `1u8 << pos` is `(1 <<< pos) % 256`. -/
def bitGetI8080 (byte pos : Nat) : Bool := byte &&& ((1 <<< pos) % 256) ≠ 0

/-! ## Register file (`src/emulator/src/intel8080/register.rs`) -/

/-- The register file: eight 8-bit registers and the two 16-bit registers. -/
structure Register where
  a : Nat
  f : Nat
  b : Nat
  c : Nat
  d : Nat
  e : Nat
  h : Nat
  l : Nat
  sp : Nat
  pc : Nat
  deriving Repr, DecidableEq

/-- The flag positions inside `F`, with the discriminants of the Rust enum. -/
inductive Flags where
  | Sign
  | Zero
  | AC
  | Parity
  | Carry
  deriving Repr, DecidableEq

/-- Discriminant of the `Flags` enum (`Sign = 7`, `Zero = 6`, `AC = 4`,
`Parity = 2`, `Carry = 0`). -/
def Flags.pos : Flags → Nat
  | .Sign => 7
  | .Zero => 6
  | .AC => 4
  | .Parity => 2
  | .Carry => 0

namespace Register

/-- Rust `get_bc`: `((b as u16) << 8) | (c as u16)`. -/
def get_bc (r : Register) : Nat := (r.b <<< 8) ||| r.c

/-- Rust `get_de`. -/
def get_de (r : Register) : Nat := (r.d <<< 8) ||| r.e

/-- Rust `get_hl`. -/
def get_hl (r : Register) : Nat := (r.h <<< 8) ||| r.l

/-- Rust `get_af`. -/
def get_af (r : Register) : Nat := (r.a <<< 8) ||| r.f

/-- Rust `set_bc`: `b = (value >> 8) as u8; c = (value & 0x00ff) as u8`. -/
def set_bc (r : Register) (value : Nat) : Register :=
  { r with b := (value >>> 8) % 256, c := value &&& 0x00ff }

/-- Rust `set_de`. -/
def set_de (r : Register) (value : Nat) : Register :=
  { r with d := (value >>> 8) % 256, e := value &&& 0x00ff }

/-- Rust `set_hl`. -/
def set_hl (r : Register) (value : Nat) : Register :=
  { r with h := (value >>> 8) % 256, l := value &&& 0x00ff }

/-- Rust `set_af`: `a = (value >> 8) as u8; f = (value & 0x00d5 | 0x0002) as u8`. -/
def set_af (r : Register) (value : Nat) : Register :=
  { r with a := (value >>> 8) % 256, f := ((value &&& 0x00d5) ||| 0x0002) % 256 }

/-- Rust `get_flag`: `bit::get(self.f, flag as usize)`. -/
def get_flag (r : Register) (flag : Flags) : Bool := bit.get r.f flag.pos

/-- Rust `set_flag`: set or clear the flag's bit in `F`. -/
def set_flag (r : Register) (flag : Flags) (value : Bool) : Register :=
  if value then { r with f := bit.set r.f flag.pos }
  else { r with f := bit.clear r.f flag.pos }

end Register

/-! ## Memory (`src/emulator/src/intel8080/memory.rs`) -/

/-- The 8080 memory: a 65,536-byte vector.  The store is a function; any
index `≥ 0x10000` is out of bounds of the vector and panics, modelled by
`none`. -/
structure Memory where
  data : Nat → Nat

namespace Memory

/-- Rust `Memory::new()`: 65,536 zero bytes. -/
def new : Memory := ⟨fun _ => 0⟩

/-- Rust `get(idx) = self.data[idx]`; panics (is `none`) out of bounds.  The
`% 256` encodes that the vector stores `u8` values. -/
def get (m : Memory) (idx : Nat) : Option Nat :=
  if idx < 0x10000 then some (m.data idx % 256) else none

/-- Rust `set(idx, value) = self.data[idx] = value`; panics out of bounds. -/
def set (m : Memory) (idx value : Nat) : Option Memory :=
  if idx < 0x10000 then
    some ⟨fun j => if j = idx then value % 256 else m.data j⟩
  else none

/-- Rust `get_word(idx) = (get(idx) as u16) | ((get(idx + 1) as u16) << 8)`.
Note the source reads `idx + 1` without wrapping. -/
def get_word (m : Memory) (idx : Nat) : Option Nat := do
  let lo ← m.get idx
  let hi ← m.get (idx + 1)
  pure (lo ||| (hi <<< 8))

/-- Rust `set_word(idx, value)`: low byte at `idx`, high byte at `idx + 1`
(again without wrapping). -/
def set_word (m : Memory) (idx value : Nat) : Option Memory := do
  let m ← m.set idx (value &&& 0x00ff)
  m.set (idx + 1) ((value >>> 8) % 256)

end Memory

/-! ## CPU state (`src/emulator/src/intel8080/cpu.rs`) -/

/-- The CPU aggregate: register file, memory, the `stop` flag (set by HLT)
and the `interrupt` (interrupts-enabled) flag. -/
structure Cpu where
  register : Register
  memory : Memory
  stop : Bool
  interrupt : Bool

/-- Popcount of a `u8` value (`result.count_ones()` in the source; every
result it is applied to is `< 256`), written as the explicit 8-bit sum. -/
def count_ones (n : Nat) : Nat :=
  n % 2 + n / 2 % 2 + n / 4 % 2 + n / 8 % 2 +
  n / 16 % 2 + n / 32 % 2 + n / 64 % 2 + n / 128 % 2

namespace Cpu

/-! ### Arithmetic group -/

/-- Rust `alu_add`: `A = A + value`, all flags set. -/
def alu_add (cpu : Cpu) (value : Nat) : Cpu :=
  let a := cpu.register.a
  let result := (a + value) % 256
  let r := cpu.register
  let r := r.set_flag .Zero (result == 0x00)
  let r := r.set_flag .Sign (bit.get result 7)
  let r := r.set_flag .AC ((a &&& 0x0f) + (value &&& 0x0f) > 0x0f)
  let r := r.set_flag .Parity (count_ones result &&& 0x01 == 0)
  let r := r.set_flag .Carry (a + value > 0xff)
  { cpu with register := { r with a := result } }

/-- Rust `alu_adc`: `A = A + value + Carry`. -/
def alu_adc (cpu : Cpu) (value : Nat) : Cpu :=
  let a := cpu.register.a
  let c := (cpu.register.get_flag .Carry).toNat
  let result := (a + value + c) % 256
  let r := cpu.register
  let r := r.set_flag .Zero (result == 0x00)
  let r := r.set_flag .Sign (bit.get result 7)
  let r := r.set_flag .AC ((a &&& 0x0f) + (value &&& 0x0f) + c > 0x0f)
  let r := r.set_flag .Parity (count_ones result &&& 0x01 == 0)
  let r := r.set_flag .Carry (a + value + c > 0xff)
  { cpu with register := { r with a := result } }

/-- Rust `alu_sub`: `A = A - value` (wrapping), all flags set; the AC rule is
`(a as i8 & 0x0f) - (value as i8 & 0x0f) >= 0`, an `Int` comparison of the
low nibbles. -/
def alu_sub (cpu : Cpu) (value : Nat) : Cpu :=
  let a := cpu.register.a
  let result := (a + 256 - value % 256) % 256
  let r := cpu.register
  let r := r.set_flag .Zero (result == 0x00)
  let r := r.set_flag .Sign (bit.get result 7)
  let r := r.set_flag .AC (((a &&& 0x0f : Nat) : Int) - ((value &&& 0x0f : Nat) : Int) ≥ 0)
  let r := r.set_flag .Parity (count_ones result &&& 0x01 == 0)
  let r := r.set_flag .Carry (a < value)
  { cpu with register := { r with a := result } }

/-- Rust `alu_sbb`: `A = A - value - Carry` (wrapping). -/
def alu_sbb (cpu : Cpu) (value : Nat) : Cpu :=
  let a := cpu.register.a
  let c := (cpu.register.get_flag .Carry).toNat
  let result := (a + 512 - value % 256 - c) % 256
  let r := cpu.register
  let r := r.set_flag .Zero (result == 0x00)
  let r := r.set_flag .Sign (bit.get result 7)
  let r := r.set_flag .AC (((a &&& 0x0f : Nat) : Int) - ((value &&& 0x0f : Nat) : Int) - (c : Int) ≥ 0)
  let r := r.set_flag .Parity (count_ones result &&& 0x01 == 0)
  let r := r.set_flag .Carry (a < value + c)
  { cpu with register := { r with a := result } }

/-- Rust `alu_inr`: returns `value + 1` (wrapping); Carry is not affected. -/
def alu_inr (cpu : Cpu) (value : Nat) : Nat × Cpu :=
  let result := (value + 1) % 256
  let r := cpu.register
  let r := r.set_flag .Zero (result == 0x00)
  let r := r.set_flag .Sign (bit.get result 7)
  let r := r.set_flag .AC ((value &&& 0x0f) + 0x01 > 0x0f)
  let r := r.set_flag .Parity (count_ones result &&& 0x01 == 0)
  (result, { cpu with register := r })

/-- Rust `alu_dcr`: returns `value - 1` (wrapping); Carry is not affected. -/
def alu_dcr (cpu : Cpu) (value : Nat) : Nat × Cpu :=
  let result := (value + 255) % 256
  let r := cpu.register
  let r := r.set_flag .Zero (result == 0x00)
  let r := r.set_flag .Sign (bit.get result 7)
  let r := r.set_flag .AC ((result &&& 0x0f) ≠ 0x0f)
  let r := r.set_flag .Parity (count_ones result &&& 0x01 == 0)
  (result, { cpu with register := r })

/-- Rust `alu_dad`: `HL = HL + value` (wrapping 16-bit); only Carry set,
via `hl > 0xffff - value`. -/
def alu_dad (cpu : Cpu) (value : Nat) : Cpu :=
  let hl := cpu.register.get_hl
  let result := (hl + value) % 65536
  let r := cpu.register.set_flag .Carry (hl > 0xffff - value)
  { cpu with register := r.set_hl result }

/-- Rust `alu_daa`: decimal adjust of the accumulator, built on `alu_add`,
then the (possibly forced) carry is written back. -/
def alu_daa (cpu : Cpu) : Cpu :=
  let carry := cpu.register.get_flag .Carry
  let low := cpu.register.a &&& 0x0f
  let high := cpu.register.a >>> 4
  let to_add : Nat := if low > 9 ∨ cpu.register.get_flag .AC then 0x06 else 0
  let pair : Nat × Bool :=
    if high > 9 ∨ cpu.register.get_flag .Carry ∨ (high ≥ 9 ∧ low > 9) then
      (to_add + 0x60, true)
    else (to_add, carry)
  let cpu := cpu.alu_add pair.1
  { cpu with register := cpu.register.set_flag .Carry pair.2 }

/-! ### Logical group -/

/-- Rust `alu_ana`: `A = A & value`; AC from `((a | value) & 0x08) != 0`,
Carry cleared. -/
def alu_ana (cpu : Cpu) (value : Nat) : Cpu :=
  let a := cpu.register.a
  let result := a &&& value
  let r := cpu.register
  let r := r.set_flag .Zero (result == 0x00)
  let r := r.set_flag .Sign (bit.get result 7)
  let r := r.set_flag .AC (((a ||| value) &&& 0x08) ≠ 0x0)
  let r := r.set_flag .Parity (count_ones result &&& 0x01 == 0)
  let r := r.set_flag .Carry false
  { cpu with register := { r with a := result } }

/-- Rust `alu_xra`: `A = A ^ value`; AC and Carry cleared. -/
def alu_xra (cpu : Cpu) (value : Nat) : Cpu :=
  let a := cpu.register.a
  let result := a ^^^ value
  let r := cpu.register
  let r := r.set_flag .Zero (result == 0x00)
  let r := r.set_flag .Sign (bit.get result 7)
  let r := r.set_flag .AC false
  let r := r.set_flag .Parity (count_ones result &&& 0x01 == 0)
  let r := r.set_flag .Carry false
  { cpu with register := { r with a := result } }

/-- Rust `alu_ora`: `A = A | value`; AC and Carry cleared. -/
def alu_ora (cpu : Cpu) (value : Nat) : Cpu :=
  let a := cpu.register.a
  let result := a ||| value
  let r := cpu.register
  let r := r.set_flag .Zero (result == 0x00)
  let r := r.set_flag .Sign (bit.get result 7)
  let r := r.set_flag .AC false
  let r := r.set_flag .Parity (count_ones result &&& 0x01 == 0)
  let r := r.set_flag .Carry false
  { cpu with register := { r with a := result } }

/-- Rust `alu_cmp`: run `alu_sub` for the flags, then restore `A`. -/
def alu_cmp (cpu : Cpu) (value : Nat) : Cpu :=
  let a := cpu.register.a
  let cpu := cpu.alu_sub value
  { cpu with register := { cpu.register with a := a } }

/-- Rust `alu_rlc`: rotate left; only Carry affected. -/
def alu_rlc (cpu : Cpu) : Cpu :=
  let msb := bit.get cpu.register.a 7
  let r := cpu.register.set_flag .Carry msb
  { cpu with register := { r with a := ((r.a <<< 1) % 256) ||| msb.toNat } }

/-- Rust `alu_rrc`: rotate right; only Carry affected. -/
def alu_rrc (cpu : Cpu) : Cpu :=
  let lsb := bit.get cpu.register.a 0
  let r := cpu.register.set_flag .Carry lsb
  let a' := if lsb then (r.a >>> 1) ||| 0x80 else r.a >>> 1
  { cpu with register := { r with a := a' } }

/-- Rust `alu_ral`: rotate left through carry; only Carry affected. -/
def alu_ral (cpu : Cpu) : Cpu :=
  let msb := bit.get cpu.register.a 7
  let a' := ((cpu.register.a <<< 1) % 256) ||| (cpu.register.get_flag .Carry).toNat
  let r := { cpu.register with a := a' }
  { cpu with register := r.set_flag .Carry msb }

/-- Rust `alu_rar`: the source computes `(A >> 1) & 0x80` when Carry is set
and `A >> 1` otherwise, then sets Carry to the old bit 0 of `A`. -/
def alu_rar (cpu : Cpu) : Cpu :=
  let lsb := bit.get cpu.register.a 0
  let a' := if cpu.register.get_flag .Carry then (cpu.register.a >>> 1) &&& 0x80
            else cpu.register.a >>> 1
  let r := { cpu.register with a := a' }
  { cpu with register := r.set_flag .Carry lsb }

/-- Rust `alu_cma`: `A = !A` (u8 complement); no flags affected. -/
def alu_cma (cpu : Cpu) : Cpu :=
  { cpu with register := { cpu.register with a := 255 ^^^ (cpu.register.a % 256) } }

/-- Rust `alu_cmc`: complement Carry. -/
def alu_cmc (cpu : Cpu) : Cpu :=
  { cpu with register :=
      cpu.register.set_flag .Carry (!cpu.register.get_flag .Carry) }

/-- Rust `alu_stc`: set Carry. -/
def alu_stc (cpu : Cpu) : Cpu :=
  { cpu with register := cpu.register.set_flag .Carry true }

/-! ### Stack / memory utilities -/

/-- Rust `stack_push`: `sp = sp.wrapping_sub(2); memory.set_word(sp, value)`. -/
def stack_push (cpu : Cpu) (value : Nat) : Option Cpu := do
  let sp := (cpu.register.sp + 65534) % 65536
  let m ← cpu.memory.set_word sp value
  pure { cpu with register := { cpu.register with sp := sp }, memory := m }

/-- Rust `stack_pop`: read the word at `sp`, then `sp = sp.wrapping_add(2)`. -/
def stack_pop (cpu : Cpu) : Option (Nat × Cpu) := do
  let result ← cpu.memory.get_word cpu.register.sp
  pure (result,
    { cpu with register := { cpu.register with sp := (cpu.register.sp + 2) % 65536 } })

/-- Rust `set_m`: write `value` at `M[HL]`. -/
def set_m (cpu : Cpu) (value : Nat) : Option Cpu := do
  let m ← cpu.memory.set cpu.register.get_hl value
  pure { cpu with memory := m }

/-- Rust `get_m`: read the byte at `M[HL]`. -/
def get_m (cpu : Cpu) : Option Nat :=
  cpu.memory.get cpu.register.get_hl

/-- Rust `get_next_byte`: read the byte at `PC`, then `pc += 1` (wrapping in
release builds). -/
def get_next_byte (cpu : Cpu) : Option (Nat × Cpu) := do
  let value ← cpu.memory.get cpu.register.pc
  pure (value,
    { cpu with register := { cpu.register with pc := (cpu.register.pc + 1) % 65536 } })

/-- Rust `get_next_word`: read the word at `PC`, then `pc += 2` (wrapping in
release builds). -/
def get_next_word (cpu : Cpu) : Option (Nat × Cpu) := do
  let value ← cpu.memory.get_word cpu.register.pc
  pure (value,
    { cpu with register := { cpu.register with pc := (cpu.register.pc + 2) % 65536 } })

/-! ### Data-transfer group -/

/-- Rust `alu_lda`: `A = M[imm16]`. -/
def alu_lda (cpu : Cpu) : Option Cpu := do
  let (word, cpu) ← cpu.get_next_word
  let value ← cpu.memory.get word
  pure { cpu with register := { cpu.register with a := value } }

/-- Rust `alu_sta`: `M[imm16] = A`. -/
def alu_sta (cpu : Cpu) : Option Cpu := do
  let value := cpu.register.a
  let (idx, cpu) ← cpu.get_next_word
  let m ← cpu.memory.set idx value
  pure { cpu with memory := m }

/-- Rust `alu_lhld`: `HL = read_word(imm16)`. -/
def alu_lhld (cpu : Cpu) : Option Cpu := do
  let (index, cpu) ← cpu.get_next_word
  let value ← cpu.memory.get_word index
  pure { cpu with register := cpu.register.set_hl value }

/-- Rust `alu_shld`: `write_word(imm16, HL)`. -/
def alu_shld (cpu : Cpu) : Option Cpu := do
  let (index, cpu) ← cpu.get_next_word
  let m ← cpu.memory.set_word index cpu.register.get_hl
  pure { cpu with memory := m }

/-- Rust `alu_ldax`: `A = M[index]`. -/
def alu_ldax (cpu : Cpu) (index : Nat) : Option Cpu := do
  let value ← cpu.memory.get index
  pure { cpu with register := { cpu.register with a := value } }

/-- Rust `alu_stax`: `M[index] = A`. -/
def alu_stax (cpu : Cpu) (index : Nat) : Option Cpu := do
  let m ← cpu.memory.set index cpu.register.a
  pure { cpu with memory := m }

/-- Rust `alu_xchg`: swap `H` with `D` and `L` with `E`. -/
def alu_xchg (cpu : Cpu) : Cpu :=
  { cpu with register :=
      { cpu.register with h := cpu.register.d, d := cpu.register.h,
                          l := cpu.register.e, e := cpu.register.l } }

/-! ### Branch group -/

/-- Rust `alu_jmp`: read the target word; if the condition holds set `PC`. -/
def alu_jmp (cpu : Cpu) (condition : Bool) : Option Cpu := do
  let (pos, cpu) ← cpu.get_next_word
  if condition then
    pure { cpu with register := { cpu.register with pc := pos } }
  else pure cpu

/-- Rust `alu_call`: read the target word; if the condition holds push the
current `PC` and jump. -/
def alu_call (cpu : Cpu) (condition : Bool) : Option Cpu := do
  let (pos, cpu) ← cpu.get_next_word
  if condition then
    let cpu ← cpu.stack_push cpu.register.pc
    pure { cpu with register := { cpu.register with pc := pos } }
  else pure cpu

/-- Rust `alu_ret`: if the condition holds pop `PC`. -/
def alu_ret (cpu : Cpu) (condition : Bool) : Option Cpu :=
  if condition then do
    let (pc, cpu) ← cpu.stack_pop
    pure { cpu with register := { cpu.register with pc := pc } }
  else pure cpu

/-- Rust `alu_rst`: push `PC`, then `PC = value * 8`. -/
def alu_rst (cpu : Cpu) (value : Nat) : Option Cpu := do
  let cpu ← cpu.stack_push cpu.register.pc
  pure { cpu with register := { cpu.register with pc := value * 8 } }

/-- Rust `alu_xthl`: swap the word at `M[SP]` with `HL`. -/
def alu_xthl (cpu : Cpu) : Option Cpu := do
  let sp ← cpu.memory.get_word cpu.register.sp
  let hl := cpu.register.get_hl
  let m ← cpu.memory.set_word cpu.register.sp hl
  pure { cpu with register := cpu.register.set_hl sp, memory := m }

/-! ### Dispatcher

`Cpu.execute` is the `match` block of `Cpu::next` in the source, taken as a
function of the matched opcode value; `Cpu.next` below binds `opcode = 1`
exactly as the source's `let opcode = 1;` does.  Every arm is translated
as written, including the arms the source gets wrong (`0xbf` compares
register `B`, `0xd6` calls `alu_sbb`). -/

set_option maxHeartbeats 3200000 in
/-- The 256-way `match opcode` block of `Cpu::next`
(`src/emulator/src/intel8080/cpu.rs`, lines 492-792). -/
def execute (cpu : Cpu) (opcode : Nat) : Option Cpu :=
  match opcode with
  | 0x00 => pure cpu
  | 0x01 => do let (value, cpu) ← cpu.get_next_word
               pure { cpu with register := cpu.register.set_bc value }
  | 0x02 => cpu.alu_stax cpu.register.get_bc
  | 0x03 => pure { cpu with register := cpu.register.set_bc ((cpu.register.get_bc + 1) % 65536) }
  | 0x04 => let p := cpu.alu_inr cpu.register.b
            pure { p.2 with register := { p.2.register with b := p.1 } }
  | 0x05 => let p := cpu.alu_dcr cpu.register.b
            pure { p.2 with register := { p.2.register with b := p.1 } }
  | 0x06 => do let (value, cpu) ← cpu.get_next_byte
               pure { cpu with register := { cpu.register with b := value } }
  | 0x07 => pure cpu.alu_rlc
  | 0x09 => pure (cpu.alu_dad cpu.register.get_bc)
  | 0x0a => cpu.alu_ldax cpu.register.get_bc
  | 0x0b => pure { cpu with register := cpu.register.set_bc ((cpu.register.get_bc + 65535) % 65536) }
  | 0x0c => let p := cpu.alu_inr cpu.register.c
            pure { p.2 with register := { p.2.register with c := p.1 } }
  | 0x0d => let p := cpu.alu_dcr cpu.register.c
            pure { p.2 with register := { p.2.register with c := p.1 } }
  | 0x0e => do let (value, cpu) ← cpu.get_next_byte
               pure { cpu with register := { cpu.register with c := value } }
  | 0x0f => pure cpu.alu_rrc
  | 0x11 => do let (value, cpu) ← cpu.get_next_word
               pure { cpu with register := cpu.register.set_de value }
  | 0x12 => cpu.alu_stax cpu.register.get_de
  | 0x13 => pure { cpu with register := cpu.register.set_de ((cpu.register.get_de + 1) % 65536) }
  | 0x14 => let p := cpu.alu_inr cpu.register.d
            pure { p.2 with register := { p.2.register with d := p.1 } }
  | 0x15 => let p := cpu.alu_dcr cpu.register.d
            pure { p.2 with register := { p.2.register with d := p.1 } }
  | 0x16 => do let (value, cpu) ← cpu.get_next_byte
               pure { cpu with register := { cpu.register with d := value } }
  | 0x17 => pure cpu.alu_ral
  | 0x19 => pure (cpu.alu_dad cpu.register.get_de)
  | 0x1a => cpu.alu_ldax cpu.register.get_de
  | 0x1b => pure { cpu with register := cpu.register.set_de ((cpu.register.get_de + 65535) % 65536) }
  | 0x1c => let p := cpu.alu_inr cpu.register.e
            pure { p.2 with register := { p.2.register with e := p.1 } }
  | 0x1d => let p := cpu.alu_dcr cpu.register.e
            pure { p.2 with register := { p.2.register with e := p.1 } }
  | 0x1e => do let (value, cpu) ← cpu.get_next_byte
               pure { cpu with register := { cpu.register with e := value } }
  | 0x1f => pure cpu.alu_rar
  | 0x21 => do let (value, cpu) ← cpu.get_next_word
               pure { cpu with register := cpu.register.set_hl value }
  | 0x22 => cpu.alu_shld
  | 0x23 => pure { cpu with register := cpu.register.set_hl ((cpu.register.get_hl + 1) % 65536) }
  | 0x24 => let p := cpu.alu_inr cpu.register.h
            pure { p.2 with register := { p.2.register with h := p.1 } }
  | 0x25 => let p := cpu.alu_dcr cpu.register.h
            pure { p.2 with register := { p.2.register with h := p.1 } }
  | 0x26 => do let (value, cpu) ← cpu.get_next_byte
               pure { cpu with register := { cpu.register with h := value } }
  | 0x27 => pure cpu.alu_daa
  | 0x29 => pure (cpu.alu_dad cpu.register.get_hl)
  | 0x2a => cpu.alu_lhld
  | 0x2b => pure { cpu with register := cpu.register.set_hl ((cpu.register.get_hl + 65535) % 65536) }
  | 0x2c => let p := cpu.alu_inr cpu.register.l
            pure { p.2 with register := { p.2.register with l := p.1 } }
  | 0x2d => let p := cpu.alu_dcr cpu.register.l
            pure { p.2 with register := { p.2.register with l := p.1 } }
  | 0x2e => do let (value, cpu) ← cpu.get_next_byte
               pure { cpu with register := { cpu.register with l := value } }
  | 0x2f => pure cpu.alu_cma
  | 0x31 => do let (value, cpu) ← cpu.get_next_word
               pure { cpu with register := { cpu.register with sp := value } }
  | 0x32 => cpu.alu_sta
  | 0x33 => pure { cpu with register := { cpu.register with sp := (cpu.register.sp + 1) % 65536 } }
  | 0x34 => do let m ← cpu.get_m
               let p := cpu.alu_inr m
               p.2.set_m p.1
  | 0x35 => do let m ← cpu.get_m
               let p := cpu.alu_dcr m
               p.2.set_m p.1
  | 0x36 => do let (value, cpu) ← cpu.get_next_byte
               cpu.set_m value
  | 0x37 => pure cpu.alu_stc
  | 0x39 => pure (cpu.alu_dad cpu.register.sp)
  | 0x3a => cpu.alu_lda
  | 0x3b => pure { cpu with register := { cpu.register with sp := (cpu.register.sp + 65535) % 65536 } }
  | 0x3c => let p := cpu.alu_inr cpu.register.a
            pure { p.2 with register := { p.2.register with a := p.1 } }
  | 0x3d => let p := cpu.alu_dcr cpu.register.a
            pure { p.2 with register := { p.2.register with a := p.1 } }
  | 0x3e => do let (value, cpu) ← cpu.get_next_byte
               pure { cpu with register := { cpu.register with a := value } }
  | 0x3f => pure cpu.alu_cmc
  | 0x40 => pure cpu
  | 0x41 => pure { cpu with register := { cpu.register with b := cpu.register.c } }
  | 0x42 => pure { cpu with register := { cpu.register with b := cpu.register.d } }
  | 0x43 => pure { cpu with register := { cpu.register with b := cpu.register.e } }
  | 0x44 => pure { cpu with register := { cpu.register with b := cpu.register.h } }
  | 0x45 => pure { cpu with register := { cpu.register with b := cpu.register.l } }
  | 0x46 => do let m ← cpu.get_m
               pure { cpu with register := { cpu.register with b := m } }
  | 0x47 => pure { cpu with register := { cpu.register with b := cpu.register.a } }
  | 0x48 => pure { cpu with register := { cpu.register with c := cpu.register.b } }
  | 0x49 => pure cpu
  | 0x4a => pure { cpu with register := { cpu.register with c := cpu.register.d } }
  | 0x4b => pure { cpu with register := { cpu.register with c := cpu.register.e } }
  | 0x4c => pure { cpu with register := { cpu.register with c := cpu.register.h } }
  | 0x4d => pure { cpu with register := { cpu.register with c := cpu.register.l } }
  | 0x4e => do let m ← cpu.get_m
               pure { cpu with register := { cpu.register with c := m } }
  | 0x4f => pure { cpu with register := { cpu.register with c := cpu.register.a } }
  | 0x50 => pure { cpu with register := { cpu.register with d := cpu.register.b } }
  | 0x51 => pure { cpu with register := { cpu.register with d := cpu.register.c } }
  | 0x52 => pure cpu
  | 0x53 => pure { cpu with register := { cpu.register with d := cpu.register.e } }
  | 0x54 => pure { cpu with register := { cpu.register with d := cpu.register.h } }
  | 0x55 => pure { cpu with register := { cpu.register with d := cpu.register.l } }
  | 0x56 => do let m ← cpu.get_m
               pure { cpu with register := { cpu.register with d := m } }
  | 0x57 => pure { cpu with register := { cpu.register with d := cpu.register.a } }
  | 0x58 => pure { cpu with register := { cpu.register with e := cpu.register.b } }
  | 0x59 => pure { cpu with register := { cpu.register with e := cpu.register.c } }
  | 0x5a => pure { cpu with register := { cpu.register with e := cpu.register.d } }
  | 0x5b => pure cpu
  | 0x5c => pure { cpu with register := { cpu.register with e := cpu.register.h } }
  | 0x5d => pure { cpu with register := { cpu.register with e := cpu.register.l } }
  | 0x5e => do let m ← cpu.get_m
               pure { cpu with register := { cpu.register with e := m } }
  | 0x5f => pure { cpu with register := { cpu.register with e := cpu.register.a } }
  | 0x60 => pure { cpu with register := { cpu.register with h := cpu.register.b } }
  | 0x61 => pure { cpu with register := { cpu.register with h := cpu.register.c } }
  | 0x62 => pure { cpu with register := { cpu.register with h := cpu.register.d } }
  | 0x63 => pure { cpu with register := { cpu.register with h := cpu.register.e } }
  | 0x64 => pure cpu
  | 0x65 => pure { cpu with register := { cpu.register with h := cpu.register.l } }
  | 0x66 => do let m ← cpu.get_m
               pure { cpu with register := { cpu.register with h := m } }
  | 0x67 => pure { cpu with register := { cpu.register with h := cpu.register.a } }
  | 0x68 => pure { cpu with register := { cpu.register with l := cpu.register.b } }
  | 0x69 => pure { cpu with register := { cpu.register with l := cpu.register.c } }
  | 0x6a => pure { cpu with register := { cpu.register with l := cpu.register.d } }
  | 0x6b => pure { cpu with register := { cpu.register with l := cpu.register.e } }
  | 0x6c => pure { cpu with register := { cpu.register with l := cpu.register.h } }
  | 0x6d => pure cpu
  | 0x6e => do let m ← cpu.get_m
               pure { cpu with register := { cpu.register with l := m } }
  | 0x6f => pure { cpu with register := { cpu.register with l := cpu.register.a } }
  | 0x70 => cpu.set_m cpu.register.b
  | 0x71 => cpu.set_m cpu.register.c
  | 0x72 => cpu.set_m cpu.register.d
  | 0x73 => cpu.set_m cpu.register.e
  | 0x74 => cpu.set_m cpu.register.h
  | 0x75 => cpu.set_m cpu.register.l
  | 0x76 => pure { cpu with stop := true }
  | 0x77 => cpu.set_m cpu.register.a
  | 0x78 => pure { cpu with register := { cpu.register with a := cpu.register.b } }
  | 0x79 => pure { cpu with register := { cpu.register with a := cpu.register.c } }
  | 0x7a => pure { cpu with register := { cpu.register with a := cpu.register.d } }
  | 0x7b => pure { cpu with register := { cpu.register with a := cpu.register.e } }
  | 0x7c => pure { cpu with register := { cpu.register with a := cpu.register.h } }
  | 0x7d => pure { cpu with register := { cpu.register with a := cpu.register.l } }
  | 0x7e => do let m ← cpu.get_m
               pure { cpu with register := { cpu.register with a := m } }
  | 0x7f => pure cpu
  | 0x80 => pure (cpu.alu_add cpu.register.b)
  | 0x81 => pure (cpu.alu_add cpu.register.c)
  | 0x82 => pure (cpu.alu_add cpu.register.d)
  | 0x83 => pure (cpu.alu_add cpu.register.e)
  | 0x84 => pure (cpu.alu_add cpu.register.h)
  | 0x85 => pure (cpu.alu_add cpu.register.l)
  | 0x86 => do let m ← cpu.get_m
               pure (cpu.alu_add m)
  | 0x87 => pure (cpu.alu_add cpu.register.a)
  | 0x88 => pure (cpu.alu_adc cpu.register.b)
  | 0x89 => pure (cpu.alu_adc cpu.register.c)
  | 0x8a => pure (cpu.alu_adc cpu.register.d)
  | 0x8b => pure (cpu.alu_adc cpu.register.e)
  | 0x8c => pure (cpu.alu_adc cpu.register.h)
  | 0x8d => pure (cpu.alu_adc cpu.register.l)
  | 0x8e => do let m ← cpu.get_m
               pure (cpu.alu_adc m)
  | 0x8f => pure (cpu.alu_adc cpu.register.a)
  | 0x90 => pure (cpu.alu_sub cpu.register.b)
  | 0x91 => pure (cpu.alu_sub cpu.register.c)
  | 0x92 => pure (cpu.alu_sub cpu.register.d)
  | 0x93 => pure (cpu.alu_sub cpu.register.e)
  | 0x94 => pure (cpu.alu_sub cpu.register.h)
  | 0x95 => pure (cpu.alu_sub cpu.register.l)
  | 0x96 => do let m ← cpu.get_m
               pure (cpu.alu_sub m)
  | 0x97 => pure (cpu.alu_sub cpu.register.a)
  | 0x98 => pure (cpu.alu_sbb cpu.register.b)
  | 0x99 => pure (cpu.alu_sbb cpu.register.c)
  | 0x9a => pure (cpu.alu_sbb cpu.register.d)
  | 0x9b => pure (cpu.alu_sbb cpu.register.e)
  | 0x9c => pure (cpu.alu_sbb cpu.register.h)
  | 0x9d => pure (cpu.alu_sbb cpu.register.l)
  | 0x9e => do let m ← cpu.get_m
               pure (cpu.alu_sbb m)
  | 0x9f => pure (cpu.alu_sbb cpu.register.a)
  | 0xa0 => pure (cpu.alu_ana cpu.register.b)
  | 0xa1 => pure (cpu.alu_ana cpu.register.c)
  | 0xa2 => pure (cpu.alu_ana cpu.register.d)
  | 0xa3 => pure (cpu.alu_ana cpu.register.e)
  | 0xa4 => pure (cpu.alu_ana cpu.register.h)
  | 0xa5 => pure (cpu.alu_ana cpu.register.l)
  | 0xa6 => do let m ← cpu.get_m
               pure (cpu.alu_ana m)
  | 0xa7 => pure (cpu.alu_ana cpu.register.a)
  | 0xa8 => pure (cpu.alu_xra cpu.register.b)
  | 0xa9 => pure (cpu.alu_xra cpu.register.c)
  | 0xaa => pure (cpu.alu_xra cpu.register.d)
  | 0xab => pure (cpu.alu_xra cpu.register.e)
  | 0xac => pure (cpu.alu_xra cpu.register.h)
  | 0xad => pure (cpu.alu_xra cpu.register.l)
  | 0xae => do let m ← cpu.get_m
               pure (cpu.alu_xra m)
  | 0xaf => pure (cpu.alu_xra cpu.register.a)
  | 0xb0 => pure (cpu.alu_ora cpu.register.b)
  | 0xb1 => pure (cpu.alu_ora cpu.register.c)
  | 0xb2 => pure (cpu.alu_ora cpu.register.d)
  | 0xb3 => pure (cpu.alu_ora cpu.register.e)
  | 0xb4 => pure (cpu.alu_ora cpu.register.h)
  | 0xb5 => pure (cpu.alu_ora cpu.register.l)
  | 0xb6 => do let m ← cpu.get_m
               pure (cpu.alu_ora m)
  | 0xb7 => pure (cpu.alu_ora cpu.register.a)
  | 0xb8 => pure (cpu.alu_cmp cpu.register.b)
  | 0xb9 => pure (cpu.alu_cmp cpu.register.c)
  | 0xba => pure (cpu.alu_cmp cpu.register.d)
  | 0xbb => pure (cpu.alu_cmp cpu.register.e)
  | 0xbc => pure (cpu.alu_cmp cpu.register.h)
  | 0xbd => pure (cpu.alu_cmp cpu.register.l)
  | 0xbe => do let m ← cpu.get_m
               pure (cpu.alu_cmp m)
  | 0xbf => pure (cpu.alu_cmp cpu.register.b)
  | 0xc0 => cpu.alu_ret (!cpu.register.get_flag .Zero)
  | 0xc1 => do let (value, cpu) ← cpu.stack_pop
               pure { cpu with register := cpu.register.set_bc value }
  | 0xc2 => cpu.alu_jmp (!cpu.register.get_flag .Zero)
  | 0xc3 => cpu.alu_jmp true
  | 0xc4 => cpu.alu_call (!cpu.register.get_flag .Zero)
  | 0xc5 => cpu.stack_push cpu.register.get_bc
  | 0xc6 => do let (value, cpu) ← cpu.get_next_byte
               pure (cpu.alu_add value)
  | 0xc7 => cpu.alu_rst 0
  | 0xc8 => cpu.alu_ret (cpu.register.get_flag .Zero)
  | 0xc9 => cpu.alu_ret true
  | 0xca => cpu.alu_jmp (cpu.register.get_flag .Zero)
  | 0xcc => cpu.alu_call (cpu.register.get_flag .Zero)
  | 0xcd => cpu.alu_call true
  | 0xce => do let (value, cpu) ← cpu.get_next_byte
               pure (cpu.alu_adc value)
  | 0xcf => cpu.alu_rst 1
  | 0xd0 => cpu.alu_ret (!cpu.register.get_flag .Carry)
  | 0xd1 => do let (value, cpu) ← cpu.stack_pop
               pure { cpu with register := cpu.register.set_de value }
  | 0xd2 => cpu.alu_jmp (!cpu.register.get_flag .Carry)
  | 0xd3 => do let (_, cpu) ← cpu.get_next_byte
               pure cpu
  | 0xd4 => cpu.alu_call (!cpu.register.get_flag .Carry)
  | 0xd5 => cpu.stack_push cpu.register.get_de
  | 0xd6 => do let (value, cpu) ← cpu.get_next_byte
               pure (cpu.alu_sbb value)
  | 0xd7 => cpu.alu_rst 2
  | 0xd8 => cpu.alu_ret (cpu.register.get_flag .Carry)
  | 0xda => cpu.alu_jmp (cpu.register.get_flag .Carry)
  | 0xdb => do let (_, cpu) ← cpu.get_next_byte
               pure cpu
  | 0xdc => cpu.alu_call (cpu.register.get_flag .Carry)
  | 0xde => do let (value, cpu) ← cpu.get_next_byte
               pure (cpu.alu_sbb value)
  | 0xdf => cpu.alu_rst 3
  | 0xe0 => cpu.alu_ret (!cpu.register.get_flag .Parity)
  | 0xe1 => do let (value, cpu) ← cpu.stack_pop
               pure { cpu with register := cpu.register.set_hl value }
  | 0xe2 => cpu.alu_jmp (!cpu.register.get_flag .Parity)
  | 0xe3 => cpu.alu_xthl
  | 0xe4 => cpu.alu_call (!cpu.register.get_flag .Parity)
  | 0xe5 => cpu.stack_push cpu.register.get_hl
  | 0xe6 => do let (value, cpu) ← cpu.get_next_byte
               pure (cpu.alu_ana value)
  | 0xe7 => cpu.alu_rst 4
  | 0xe8 => cpu.alu_ret (cpu.register.get_flag .Parity)
  | 0xe9 => pure { cpu with register := { cpu.register with pc := cpu.register.get_hl } }
  | 0xea => cpu.alu_jmp (cpu.register.get_flag .Parity)
  | 0xeb => pure cpu.alu_xchg
  | 0xec => cpu.alu_call (cpu.register.get_flag .Parity)
  | 0xee => do let (value, cpu) ← cpu.get_next_byte
               pure (cpu.alu_xra value)
  | 0xef => cpu.alu_rst 5
  | 0xf0 => cpu.alu_ret (!cpu.register.get_flag .Sign)
  | 0xf1 => do let (value, cpu) ← cpu.stack_pop
               pure { cpu with register := cpu.register.set_af value }
  | 0xf2 => cpu.alu_jmp (!cpu.register.get_flag .Sign)
  | 0xf3 => pure { cpu with interrupt := false }
  | 0xf4 => cpu.alu_call (!cpu.register.get_flag .Sign)
  | 0xf5 => cpu.stack_push cpu.register.get_af
  | 0xf6 => do let (value, cpu) ← cpu.get_next_byte
               pure (cpu.alu_ora value)
  | 0xf7 => cpu.alu_rst 6
  | 0xf8 => cpu.alu_ret (cpu.register.get_flag .Sign)
  | 0xf9 => pure { cpu with register := { cpu.register with sp := cpu.register.get_hl } }
  | 0xfa => cpu.alu_jmp (cpu.register.get_flag .Sign)
  | 0xfb => pure { cpu with interrupt := true }
  | 0xfc => cpu.alu_call (cpu.register.get_flag .Sign)
  | 0xfe => do let (value, cpu) ← cpu.get_next_byte
               pure (cpu.alu_cmp value)
  | 0xff => cpu.alu_rst 7
  | _ => pure cpu

/-- Rust `Cpu::next`: the source binds `let opcode = 1;` and matches on it,
so every call runs the `0x01` (LXI B) arm. -/
def next (cpu : Cpu) : Option Cpu :=
  let opcode := 1
  cpu.execute opcode

end Cpu

/-! ## Base states used by the concrete scenarios -/

/-- A register file with every field zero. -/
def reg0 : Register := ⟨0, 0, 0, 0, 0, 0, 0, 0, 0, 0⟩

/-- A CPU over all-zero registers and all-zero memory. -/
def cpu0 : Cpu :=
  { register := reg0, memory := Memory.new, stop := false, interrupt := false }

/-- The memory after pushing word `v` at stack address `sp`, as produced by
`Memory.set_word` (each stored byte carries the `% 256` the model's `set`
applies). -/
def pushedMem (m : Memory) (sp v : Nat) : Memory :=
  ⟨fun j => if j = sp + 1 then v >>> 8 % 256 % 256 else if j = sp then (v &&& 255) % 256 else m.data j⟩

/-! ## Helper lemmas about byte packing -/

/-- Splitting a number into its low byte and the rest and re-`or`-ing them is
the identity. -/
lemma byte_split_lor (x : Nat) : (x % 256) ||| ((x >>> 8) <<< 8) = x := by
  apply Nat.eq_of_testBit_eq
  intro i
  have h256 : (256 : Nat) = 2 ^ 8 := by norm_num
  rw [Nat.testBit_lor, Nat.testBit_shiftLeft, Nat.testBit_shiftRight, h256,
      Nat.testBit_mod_two_pow]
  by_cases h : i < 8
  · have h' : ¬ (i ≥ 8) := by omega
    simp [h, h']
  · have h8 : i ≥ 8 := by omega
    have he : 8 + (i - 8) = i := by omega
    simp [h, h8, he]

/-- An `or` of a byte with a shifted-up high part is the plain sum. -/
lemma lor_byte_eq_add (lo hi : Nat) (hlo : lo < 256) :
    lo ||| (hi <<< 8) = lo + 256 * hi := by
  have h := byte_split_lor (lo + 256 * hi)
  have h1 : (lo + 256 * hi) % 256 = lo := by omega
  have h2 : (lo + 256 * hi) >>> 8 = hi := by
    rw [Nat.shiftRight_eq_div_pow]
    norm_num
    omega
  rw [h1, h2] at h
  exact h

/-- Extracting the high byte of a packed word. -/
lemma hi_of_add (lo hi : Nat) (hlo : lo < 256) (hhi : hi < 256) :
    ((lo + 256 * hi) >>> 8) % 256 = hi := by
  rw [Nat.shiftRight_eq_div_pow]
  norm_num
  omega

/-- Extracting the low byte of a packed word. -/
lemma lo_of_add (lo hi : Nat) (hlo : lo < 256) :
    (lo + 256 * hi) &&& 255 = lo := by
  have h := Nat.and_pow_two_sub_one_eq_mod (lo + 256 * hi) 8
  norm_num at h
  omega

/-- Masking with `0xff` is reduction mod 256. -/
lemma and255_eq_mod (x : Nat) : x &&& 255 = x % 256 := by
  have h := Nat.and_pow_two_sub_one_eq_mod x 8
  norm_num at h
  exact h

/-! ## The claims -/

/-- C1: the claim says `next()` fetches its opcode byte from memory at `PC`
and advances `PC` by 1 for the fetch, so a NOP (0x00) at `PC` would advance
`PC` by exactly 1 and change no register.  The code instead hardcodes
`let opcode = 1;`, never reading the opcode from memory: with a NOP stored
at `PC = 0` (and 0x12 at address 1), `next()` runs the LXI B arm, loading
0x12 into `B` and advancing `PC` by 2. -/
theorem C1_next_does_not_fetch_opcode :
    ({ cpu0 with memory := ⟨fun idx => if idx = 1 then 0x12 else 0⟩ } : Cpu).memory.get
        cpu0.register.pc = some 0x00 ∧
    (Cpu.next { cpu0 with memory := ⟨fun idx => if idx = 1 then 0x12 else 0⟩ }).map
        (fun c => (c.register.pc, c.register.b)) = some (2, 0x12) :=
  ⟨rfl, rfl⟩

/-- C3: the claim (and the spec) mandate RAR semantics
`A := (CY <<< 7) ||| (A >>> 1)`, so from `A = 0x02, CY = 1` the new `A`
must be `0x81`.  The code computes `(A >> 1) & 0x80` when the carry is set,
which yields `A = 0x00` on that input (the bug §9 of the spec points out).
The carry itself is set to bit 0 of the old `A` as claimed. -/
theorem C3_rar_with_carry_set_zeroes_a :
    (Cpu.alu_rar { cpu0 with register := { reg0 with a := 0x02, f := 0x01 } }).register.a
        = 0x00 ∧
    (Cpu.alu_rar { cpu0 with register := { reg0 with a := 0x02, f := 0x01 } }).register.get_flag
        .Carry = false :=
  ⟨rfl, rfl⟩

/-- C4: the claim says `read_word` / `write_word` are defined at every
address including 0xFFFF, with the high byte at `(a + 1) mod 2^16`.  The
code computes `idx + 1` without wrapping, so at 0xFFFF it indexes
`data[0x10000]`, out of bounds of the 65,536-byte buffer: both word
operations panic (model: `none`) instead of wrapping to address 0. -/
theorem C4_word_access_at_ffff_out_of_bounds :
    Memory.new.get_word 0xffff = none ∧ Memory.new.set_word 0xffff 0x1234 = none :=
  ⟨rfl, rfl⟩

/-- C5: the claim says every `CMP r` (0xB8-0xBF) sets Zero iff `A` equals
the operand the opcode names, so `CMP A` (0xBF) must always produce `Z = 1`
and `CY = 0`.  The `0xbf` arm of the dispatcher compares register `B`
instead of `A`: from `A = 0x01, B = 0x00` it leaves `A` unchanged but
produces `Z = 0` (`0x01 ≠ 0x00`), contradicting the claim. -/
theorem C5_cmp_a_compares_register_b :
    (Cpu.execute { cpu0 with register := { reg0 with a := 0x01, b := 0x00 } } 0xbf).map
        (fun c => (c.register.a, c.register.get_flag .Zero, c.register.get_flag .Carry))
      = some (0x01, false, false) :=
  rfl

/-- C6: the claim says opcode 0xD6 (SUI) sets `A := (A - d) mod 256`
independently of the incoming Carry flag.  The `0xd6` arm calls `alu_sbb`,
which also subtracts the carry: from `A = 0x05`, `CY = 1` and immediate
`d = 0x01` the code produces `A = 0x03` where the claim requires `0x04`. -/
theorem C6_sui_also_subtracts_carry :
    (Cpu.execute
        { cpu0 with
          register := { reg0 with a := 0x05, f := 0x01, pc := 0x100 },
          memory := ⟨fun idx => if idx = 0x100 then 0x01 else 0⟩ } 0xd6).map
        (fun c => c.register.a)
      = some 0x03 :=
  rfl

/-- C7: the DAA scenario of §8: from `A = 0x9B`, `AC = 0`, `CY = 0` the
`alu_daa` primitive produces `A = 0x01` with `CY = 1`, `AC = 1`, `Z = 0`,
`P = 0`, `S = 0`, exactly as the claim states. -/
theorem C7_daa_scenario :
    (Cpu.alu_daa { cpu0 with register := { reg0 with a := 0x9b } }).register.a = 0x01 ∧
    (Cpu.alu_daa { cpu0 with register := { reg0 with a := 0x9b } }).register.get_flag
        .Carry = true ∧
    (Cpu.alu_daa { cpu0 with register := { reg0 with a := 0x9b } }).register.get_flag
        .AC = true ∧
    (Cpu.alu_daa { cpu0 with register := { reg0 with a := 0x9b } }).register.get_flag
        .Zero = false ∧
    (Cpu.alu_daa { cpu0 with register := { reg0 with a := 0x9b } }).register.get_flag
        .Parity = false ∧
    (Cpu.alu_daa { cpu0 with register := { reg0 with a := 0x9b } }).register.get_flag
        .Sign = false :=
  ⟨rfl, rfl, rfl, rfl, rfl, rfl⟩

/-- C2 counterexample: the claim quantifies over every CPU state, but when
`PC = 0xFFFF` the LXI B fetch reads the word at `0xFFFF`, whose high byte is
`data[0x10000]`, out of bounds: `next()` panics (model: `none`) instead of
loading BC and advancing PC. -/
theorem C2_next_panics_at_pc_ffff :
    Cpu.next { cpu0 with register := { reg0 with pc := 0xffff } } = none :=
  rfl

/-- C2 (amended): whenever the word at `PC` does not straddle the top of
memory (`PC + 1 < 2^16`), every call to `next()` takes the LXI B path: it
loads the little-endian word stored at `PC` (low byte at `PC`, high byte at
`PC + 1`) into the BC pair, advances `PC` by exactly 2, and changes nothing
else — independent of which opcode byte is actually stored at `PC`, which
the theorem never constrains. -/
theorem C2_next_always_takes_lxi_b (cpu : Cpu) (h : cpu.register.pc + 1 < 65536) :
    ∃ cpu', Cpu.next cpu = some cpu' ∧
      cpu'.register.b = cpu.memory.data (cpu.register.pc + 1) % 256 ∧
      cpu'.register.c = cpu.memory.data cpu.register.pc % 256 ∧
      cpu'.register.pc = (cpu.register.pc + 2) % 65536 ∧
      cpu'.register.a = cpu.register.a ∧ cpu'.register.f = cpu.register.f ∧
      cpu'.register.d = cpu.register.d ∧ cpu'.register.e = cpu.register.e ∧
      cpu'.register.h = cpu.register.h ∧ cpu'.register.l = cpu.register.l ∧
      cpu'.register.sp = cpu.register.sp ∧ cpu'.memory = cpu.memory ∧
      cpu'.stop = cpu.stop ∧ cpu'.interrupt = cpu.interrupt := by
  have h0 : cpu.register.pc < 0x10000 := by omega
  have hlo : cpu.memory.data cpu.register.pc % 256 < 256 := Nat.mod_lt _ (by norm_num)
  have hhi : cpu.memory.data (cpu.register.pc + 1) % 256 < 256 := Nat.mod_lt _ (by norm_num)
  have hword : cpu.memory.get_word cpu.register.pc =
      some ((cpu.memory.data cpu.register.pc % 256) |||
            ((cpu.memory.data (cpu.register.pc + 1) % 256) <<< 8)) := by
    simp [Memory.get_word, Memory.get, h0, h]
  have hnext : Cpu.next cpu =
      Option.bind cpu.get_next_word
        (fun p => some { p.2 with register := p.2.register.set_bc p.1 }) := rfl
  have hnw : cpu.get_next_word =
      some ((cpu.memory.data cpu.register.pc % 256) |||
            ((cpu.memory.data (cpu.register.pc + 1) % 256) <<< 8),
        { cpu with register := { cpu.register with pc := (cpu.register.pc + 2) % 65536 } }) := by
    unfold Cpu.get_next_word
    rw [hword]
    rfl
  have hres : Cpu.next cpu = some { cpu with register := Register.set_bc { cpu.register with pc := (cpu.register.pc + 2) % 65536 } ((cpu.memory.data cpu.register.pc % 256) ||| ((cpu.memory.data (cpu.register.pc + 1) % 256) <<< 8)) } := by
    rw [hnext, hnw]
    rfl
  refine ⟨_, hres, ?_, ?_, rfl, rfl, rfl, rfl, rfl, rfl, rfl, rfl, rfl, rfl, rfl⟩
  · show (((cpu.memory.data cpu.register.pc % 256) |||
      ((cpu.memory.data (cpu.register.pc + 1) % 256) <<< 8)) >>> 8) % 256 = _
    rw [lor_byte_eq_add _ _ hlo]
    exact hi_of_add _ _ hlo hhi
  · show ((cpu.memory.data cpu.register.pc % 256) |||
      ((cpu.memory.data (cpu.register.pc + 1) % 256) <<< 8)) &&& 0xff = _
    rw [lor_byte_eq_add _ _ hlo]
    exact lo_of_add _ _ hlo

/-- C2 witness: the amended theorem applied to the all-zero CPU. -/
theorem C2_next_always_takes_lxi_b_witness :
    cpu0.register.pc + 1 < 65536 ∧
    (∃ cpu', Cpu.next cpu0 = some cpu' ∧
      cpu'.register.b = cpu0.memory.data (cpu0.register.pc + 1) % 256 ∧
      cpu'.register.c = cpu0.memory.data cpu0.register.pc % 256 ∧
      cpu'.register.pc = (cpu0.register.pc + 2) % 65536 ∧
      cpu'.register.a = cpu0.register.a ∧ cpu'.register.f = cpu0.register.f ∧
      cpu'.register.d = cpu0.register.d ∧ cpu'.register.e = cpu0.register.e ∧
      cpu'.register.h = cpu0.register.h ∧ cpu'.register.l = cpu0.register.l ∧
      cpu'.register.sp = cpu0.register.sp ∧ cpu'.memory = cpu0.memory ∧
      cpu'.stop = cpu0.stop ∧ cpu'.interrupt = cpu0.interrupt) :=
  ⟨by decide, C2_next_always_takes_lxi_b cpu0 (by decide)⟩

/-- C8 counterexample: the claim allows every initial SP, but from `SP = 1`
the push writes the word at wrapped address `0xFFFF`, whose high byte is
`data[0x10000]`, out of bounds of the 65,536-byte buffer: `stack_push`
panics (model: `none`), so no round trip happens. -/
theorem C8_push_at_sp_one_out_of_bounds :
    Cpu.stack_push { cpu0 with register := { reg0 with sp := 1 } } 0x1234 = none :=
  rfl

/-- C8 (amended): for every CPU state whose `SP` is a `u16` other than
`0x0001` (the one value whose decremented stack slot straddles the top of
memory) and every 16-bit `v`, `stack_push v` followed by `stack_pop`
returns exactly `v` and restores `SP`; consequently PUSH of one register
pair followed by POP into another copies the pushed value with SP
unchanged. -/
theorem C8_push_pop_round_trip (cpu : Cpu) (v : Nat) (hsp : cpu.register.sp < 65536)
    (hne : cpu.register.sp ≠ 1) (hv : v < 65536) :
    ∃ cpu1 cpu2, cpu.stack_push v = some cpu1 ∧
      cpu1.stack_pop = some (v, cpu2) ∧ cpu2.register.sp = cpu.register.sp := by
  have ha : (cpu.register.sp + 65534) % 65536 < 65536 := by omega
  have hb : (cpu.register.sp + 65534) % 65536 + 1 < 65536 := by omega
  have hc : ¬ ((cpu.register.sp + 65534) % 65536 = (cpu.register.sp + 65534) % 65536 + 1) := by
    omega
  have hval : (v &&& 255) % 256 % 256 ||| (v >>> 8 % 256 % 256 % 256) <<< 8 = v := by
    have hshift : v >>> 8 < 256 := by
      rw [Nat.shiftRight_eq_div_pow]
      norm_num
      omega
    have e1 : (v &&& 255) % 256 % 256 = v % 256 := by
      rw [and255_eq_mod]
      omega
    have e2 : v >>> 8 % 256 % 256 % 256 = v >>> 8 := by omega
    rw [e1, e2]
    exact byte_split_lor v
  have hpush : cpu.stack_push v = some { cpu with
      register := { cpu.register with sp := (cpu.register.sp + 65534) % 65536 },
      memory := pushedMem cpu.memory ((cpu.register.sp + 65534) % 65536) v } := by
    unfold Cpu.stack_push Memory.set_word Memory.set pushedMem
    simp only [ha, hb, if_true, Option.bind]
    rfl
  have g1 : Memory.get (pushedMem cpu.memory ((cpu.register.sp + 65534) % 65536) v)
      ((cpu.register.sp + 65534) % 65536) = some ((v &&& 255) % 256 % 256) := by
    simp [Memory.get, pushedMem, ha, hc]
  have g2 : Memory.get (pushedMem cpu.memory ((cpu.register.sp + 65534) % 65536) v)
      ((cpu.register.sp + 65534) % 65536 + 1) = some (v >>> 8 % 256 % 256 % 256) := by
    simp [Memory.get, pushedMem, hb]
  have hpop : Cpu.stack_pop { cpu with
      register := { cpu.register with sp := (cpu.register.sp + 65534) % 65536 },
      memory := pushedMem cpu.memory ((cpu.register.sp + 65534) % 65536) v }
      = some ((v &&& 255) % 256 % 256 ||| (v >>> 8 % 256 % 256 % 256) <<< 8,
        { cpu with
          register := { cpu.register with sp := ((cpu.register.sp + 65534) % 65536 + 2) % 65536 },
          memory := pushedMem cpu.memory ((cpu.register.sp + 65534) % 65536) v }) := by
    unfold Cpu.stack_pop Memory.get_word
    rw [g1]
    simp only [Option.bind]
    rw [g2]
    rfl
  rw [hval] at hpop
  refine ⟨_, _, hpush, hpop, ?_⟩
  show ((cpu.register.sp + 65534) % 65536 + 2) % 65536 = cpu.register.sp
  omega

/-- C8 witness: the amended theorem at the spec's stack round-trip scenario,
`SP = 0x2400` with the word `0x1234`. -/
theorem C8_push_pop_round_trip_witness :
    ({ cpu0 with register := { reg0 with sp := 0x2400 } } : Cpu).register.sp < 65536 ∧
    ({ cpu0 with register := { reg0 with sp := 0x2400 } } : Cpu).register.sp ≠ 1 ∧
    (0x1234 : Nat) < 65536 ∧
    (∃ cpu1 cpu2,
      Cpu.stack_push { cpu0 with register := { reg0 with sp := 0x2400 } } 0x1234 = some cpu1 ∧
      cpu1.stack_pop = some (0x1234, cpu2) ∧
      cpu2.register.sp = ({ cpu0 with register := { reg0 with sp := 0x2400 } } : Cpu).register.sp) :=
  ⟨by decide, by decide, by decide,
    C8_push_pop_round_trip { cpu0 with register := { reg0 with sp := 0x2400 } } 0x1234
      (by decide) (by decide) (by decide)⟩

/-- C9 counterexample: the claim says `IN` with no bus sets `A := 0`, but
the `0xdb` arm only consumes the port byte: from `A = 0x05` the code leaves
`A = 0x05`, not `0`. -/
theorem C9_in_leaves_a_unchanged :
    (Cpu.execute { cpu0 with register := { reg0 with a := 0x05 } } 0xdb).map
        (fun c => c.register.a) = some 0x05 :=
  rfl

/-- C9 (amended): with no I/O bus in the implementation, `OUT` (0xD3) and
`IN` (0xDB) each consume exactly their one port-number immediate byte —
advancing `PC` by 1 — and change nothing else: `OUT` discards the output
and `IN` leaves `A` (and every other register) unchanged rather than
setting it to 0. -/
theorem C9_in_out_consume_one_byte (cpu : Cpu) (h : cpu.register.pc < 65536) :
    (∃ c1, Cpu.execute cpu 0xd3 = some c1 ∧
       c1.register = { cpu.register with pc := (cpu.register.pc + 1) % 65536 } ∧
       c1.memory = cpu.memory ∧ c1.stop = cpu.stop ∧ c1.interrupt = cpu.interrupt) ∧
    (∃ c2, Cpu.execute cpu 0xdb = some c2 ∧
       c2.register = { cpu.register with pc := (cpu.register.pc + 1) % 65536 } ∧
       c2.memory = cpu.memory ∧ c2.stop = cpu.stop ∧ c2.interrupt = cpu.interrupt) := by
  have hd3 : Cpu.execute cpu 0xd3 = Option.bind cpu.get_next_byte (fun p => some p.2) := rfl
  have hdb : Cpu.execute cpu 0xdb = Option.bind cpu.get_next_byte (fun p => some p.2) := rfl
  have hb : cpu.get_next_byte = some (cpu.memory.data cpu.register.pc % 256,
      { cpu with register := { cpu.register with pc := (cpu.register.pc + 1) % 65536 } }) := by
    unfold Cpu.get_next_byte Memory.get
    rw [if_pos h]
    rfl
  have hres3 : Cpu.execute cpu 0xd3 = some { cpu with register := { cpu.register with pc := (cpu.register.pc + 1) % 65536 } } := by
    rw [hd3, hb]
    rfl
  have hresb : Cpu.execute cpu 0xdb = some { cpu with register := { cpu.register with pc := (cpu.register.pc + 1) % 65536 } } := by
    rw [hdb, hb]
    rfl
  exact ⟨⟨_, hres3, rfl, rfl, rfl, rfl⟩, ⟨_, hresb, rfl, rfl, rfl, rfl⟩⟩

/-- C9 witness: the amended theorem at the all-zero CPU. -/
theorem C9_in_out_consume_one_byte_witness :
    cpu0.register.pc < 65536 ∧
    ((∃ c1, Cpu.execute cpu0 0xd3 = some c1 ∧
       c1.register = { cpu0.register with pc := (cpu0.register.pc + 1) % 65536 } ∧
       c1.memory = cpu0.memory ∧ c1.stop = cpu0.stop ∧ c1.interrupt = cpu0.interrupt) ∧
     (∃ c2, Cpu.execute cpu0 0xdb = some c2 ∧
       c2.register = { cpu0.register with pc := (cpu0.register.pc + 1) % 65536 } ∧
       c2.memory = cpu0.memory ∧ c2.stop = cpu0.stop ∧ c2.interrupt = cpu0.interrupt)) :=
  ⟨by decide, C9_in_out_consume_one_byte cpu0 (by decide)⟩

set_option maxRecDepth 4000 in
/-- C10: for every byte `b` and bit position `pos ≤ 7`, the emulator
crate's `((b >> pos) & 1) != 0` and the intel8080 crate's
`(b & (1 << pos)) != 0` return the same boolean. -/
theorem C10_bit_get_implementations_agree :
    ∀ b < 256, ∀ pos < 8, bit.get b pos = bitGetI8080 b pos := by
  decide

/-- C10 witness: the equivalence applied at `b = 0xB6`, `pos = 2`. -/
theorem C10_bit_get_implementations_agree_witness :
    (0xb6 : Nat) < 256 ∧ (2 : Nat) < 8 ∧ bit.get 0xb6 2 = bitGetI8080 0xb6 2 :=
  ⟨by decide, by decide, C10_bit_get_implementations_agree 0xb6 (by decide) 2 (by decide)⟩

end Intel8080
